import Mathlib

/-!
Shallow embedding of the solana-balance-watcher sources
(`src/balance.rs`, `src/program_accounts_balance.rs`, `src/metrics.rs`,
`src/bin/cli.rs`).

Conventions of the embedding:
* Rust `&str` values are Lean `String`s; the Rust splitting primitives
  `str::split_once` and `str::split` are modelled on `List Char`.
* `u64`/`usize` parsing (`str::parse`) is modelled by `parseU64`
  (optional leading plus sign, decimal digits, value below `2^64`);
  the deployment target is 64-bit, so `usize` and `u64` share the bound.
* `f64` gauge values (`lamports_to_sol`, prometheus gauges) are modelled
  by exact rationals: the spec's "smallest-unit balance divided by 10^9".
* A Rust `panic!`/`.expect(...)` is a distinct outcome constructor,
  never merged with an `anyhow` error return.
* Log lines (`error!`, `info!`) are carried as diagnostic strings where a
  claim mentions them; quote characters of the Rust format strings are
  elided from the modelled messages.
-/

namespace SolanaBalanceWatcher

/-- Model of Rust `str::split_once(sep)`: split at the first occurrence of
`sep`, returning the parts before and after it, or `none` when `sep` does
not occur. -/
def splitOnceChar : List Char → Char → Option (List Char × List Char)
  | [], _ => none
  | c :: rest, sep =>
    if c = sep then some ([], rest)
    else
      match splitOnceChar rest sep with
      | some (a, b) => some (c :: a, b)
      | none => none

/-- Model of Rust `str::split(sep)` for a single-character separator: keeps
empty fragments, and the empty string yields one empty fragment (this is why
the `MissingProgramId` branch of the config builder is unreachable). -/
def splitChar : List Char → Char → List (List Char)
  | [], _ => [[]]
  | c :: rest, sep =>
    if c = sep then [] :: splitChar rest sep
    else
      match splitChar rest sep with
      | [] => [[c]]
      | h :: t => (c :: h) :: t

/-- Model of Rust `str::parse::<u64>()` (and `usize` on the 64-bit target):
an optional leading plus sign, then at least one decimal digit, and the
value must fit in 64 bits. -/
def parseU64 (s : String) : Option Nat :=
  let cs := match s.toList with
    | '+' :: rest => rest
    | cs => cs
  if cs.isEmpty then none
  else if cs.all Char.isDigit then
    let v := cs.foldl (fun acc c => acc * 10 + (c.toNat - 48)) 0
    if v < 2 ^ 64 then some v else none
  else none

/-- The base58 alphabet used by the `bs58` crate (Bitcoin alphabet). -/
def base58Chars : List Char :=
  "123456789ABCDEFGHJKLMNPQRSTUVWXYZabcdefghijkmnopqrstuvwxyz".toList

/-- Index of a character in the base58 alphabet, `none` for characters that
are not base58 digits. -/
def base58DigitAux : List Char → Nat → Char → Option Nat
  | [], _, _ => none
  | a :: rest, i, c => if c = a then some i else base58DigitAux rest (i + 1) c

/-- Value of one base58 digit. -/
def base58Digit (c : Char) : Option Nat :=
  base58DigitAux base58Chars 0 c

/-- Digit values of a base58 string, `none` if any character is invalid. -/
def bs58Digits : List Char → Option (List Nat)
  | [] => some []
  | c :: rest =>
    match base58Digit c, bs58Digits rest with
    | some d, some ds => some (d :: ds)
    | _, _ => none

/-- Number of leading one-characters of a base58 string; each encodes one
leading zero byte. -/
def countLeadingOnes : List Char → Nat
  | [] => 0
  | c :: rest => if c = '1' then countLeadingOnes rest + 1 else 0

/-- Big-endian base-256 digits of a natural number (fuel-based so that the
kernel can evaluate it; the first argument is the fuel). -/
def natToBytesBEAux : Nat → Nat → List Nat
  | 0, _ => []
  | fuel + 1, n =>
    if n = 0 then [] else natToBytesBEAux fuel (n / 256) ++ [n % 256]

/-- Big-endian byte representation of a natural number (empty for zero). -/
def natToBytesBE (n : Nat) : List Nat :=
  natToBytesBEAux n n

/-- Model of `bs58::decode(s).into_vec()`: every character must be a base58
digit; the digits form a big number; leading one-characters become leading
zero bytes. -/
def bs58Decode (s : String) : Option (List Nat) :=
  match bs58Digits s.toList with
  | none => none
  | some ds =>
    some (List.replicate (countLeadingOnes s.toList) 0
      ++ natToBytesBE (ds.foldl (fun acc d => acc * 58 + d) 0))

/-- Model of `solana_sdk::pubkey::Pubkey::from_str`: at most 44 characters,
valid base58, and exactly 32 decoded bytes. `some bytes` models `Ok`,
`none` models `Err(ParsePubkeyError)`. -/
def pubkeyFromStr (s : String) : Option (List Nat) :=
  if s.length > 44 then none
  else
    match bs58Decode s with
    | none => none
    | some bytes => if bytes.length = 32 then some bytes else none

/-- Model of `solana_client::rpc_filter::RpcFilterType` as constructed by
this program: the memcmp variant stores the offset and the base58 payload
string exactly as `Memcmp::new(offset, MemcmpEncodedBytes::Base58(bytes))`
does — the payload is NOT decoded at construction time. -/
inductive RpcFilterType where
  | memcmp (offset : Nat) (base58Bytes : String)
  | dataSize (size : Nat)
deriving DecidableEq, Repr

/-- Model of `parse_memcmp_base58_filter_type` from
`src/program_accounts_balance.rs`: split the parameter at its first colon,
parse the offset as an unsigned integer, and store the remainder verbatim
as the (still encoded) base58 payload. -/
def parse_memcmp_base58_filter_type (param : String) : Except String RpcFilterType :=
  match splitOnceChar param.toList ':' with
  | some (offset, bytes) =>
    match parseU64 (String.mk offset) with
    | some n => Except.ok (RpcFilterType.memcmp n (String.mk bytes))
    | none => Except.error ("invalid offset " ++ String.mk offset)
  | none => Except.error ("Failed to parse base58 memcmp filter from " ++ param)

/-- Model of `parse_data_size_filter_type`: parse the parameter as a `u64`
data size. -/
def parse_data_size_filter_type (data_size : String) : Except String RpcFilterType :=
  match parseU64 data_size with
  | some n => Except.ok (RpcFilterType.dataSize n)
  | none => Except.error ("invalid data size " ++ data_size)

/-- Model of `parse_rpc_filter_type`: split the token at its first colon
into kind and value; dispatch on the kind; a missing colon is a malformed
parameter. -/
def parse_rpc_filter_type (param : String) : Except String RpcFilterType :=
  match splitOnceChar param.toList ':' with
  | some (key, value) =>
    if String.mk key = "b58" then parse_memcmp_base58_filter_type (String.mk value)
    else if String.mk key = "size" then parse_data_size_filter_type (String.mk value)
    else Except.error ("Unsupported parameter type " ++ String.mk key)
  | none => Except.error ("Malformed parameter " ++ param)

/-- Sequencing of `parse_rpc_filter_type` over the remaining tokens, as the
`for param in params` loop of `from_str` does with `?` propagation. -/
def parseFilterList : List (List Char) → Except String (List RpcFilterType)
  | [] => Except.ok []
  | p :: rest =>
    match parse_rpc_filter_type (String.mk p) with
    | Except.error e => Except.error e
    | Except.ok f =>
      match parseFilterList rest with
      | Except.error e => Except.error e
      | Except.ok fs => Except.ok (f :: fs)

/-- Outcome of `ProgramAccountsBalanceConfig::from_str`: a parsed config,
an `anyhow` error return, or a panic raised by `.expect(...)`. -/
inductive CfgOutcome where
  | ok (name : String) (program : List Nat) (filters : List RpcFilterType)
  | err (msg : String)
  | panic (msg : String)
deriving DecidableEq, Repr

/-- Whether a `CfgOutcome` is an `anyhow` error return (not a panic). -/
def CfgOutcome.isErr : CfgOutcome → Bool
  | CfgOutcome.err _ => true
  | _ => false

/-- Model of `ProgramAccountsBalanceConfig::from_str` from
`src/program_accounts_balance.rs`: split on the first equals sign, split
the parameter side on spaces, `.expect`-parse the first token as the
program id (a PANIC on failure, not an error return), then parse every
remaining token as a filter. -/
def ProgramAccountsBalanceConfig.fromStr (s : String) : CfgOutcome :=
  match splitOnceChar s.toList '=' with
  | none =>
    CfgOutcome.err "Cannot parse ProgramAccountsBalanceConfig, expected syntax: name=params"
  | some (name, params) =>
    match splitChar params ' ' with
    | [] => CfgOutcome.err "Program ID not found!"
    | prog :: rest =>
      match pubkeyFromStr (String.mk prog) with
      | none => CfgOutcome.panic ("Failed to parse program ID from " ++ String.mk prog)
      | some pk =>
        match parseFilterList rest with
        | Except.error e => CfgOutcome.err e
        | Except.ok filters => CfgOutcome.ok (String.mk name) pk filters

/-- Conversion of a smallest-unit (lamport) balance to SOL, the model of
`solana_sdk::native_token::lamports_to_sol` (an `f64` division in the
source, modelled by the exact rational `lamports / 10^9`). -/
def lamports_to_sol (lamports : Nat) : ℚ :=
  (lamports : ℚ) / (10 ^ 9 : ℚ)

/-- A call into the prometheus gauge store (`src/metrics.rs`), as emitted by
one watcher cycle. -/
inductive MetricEvent where
  | setBalance (name : String) (pubkey : String) (value : ℚ)
  | resetAll
  | setAggregate (name : String) (value : ℚ)
  | removeAggregate (name : String)
deriving DecidableEq, Repr

/-- Count of `setBalance` calls in an event list. -/
def countSetBalance (evs : List MetricEvent) : Nat :=
  evs.countP fun e =>
    match e with
    | MetricEvent.setBalance _ _ _ => true
    | _ => false

/-- Count of `resetAll` calls in an event list. -/
def countResetAll (evs : List MetricEvent) : Nat :=
  evs.countP fun e =>
    match e with
    | MetricEvent.resetAll => true
    | _ => false

/-- State of the prometheus gauge store of `src/metrics.rs`: the
`balance_sol` gauge vector keyed by the labels `(name, pubkey)` and the
`total_balance_sol` gauge vector keyed by the label `name`; an absent key
is a gauge that is not currently exported. -/
structure MetricsState where
  balanceSol : String × String → Option ℚ
  totalBalanceSol : String → Option ℚ

/-- Model of `update_metric_balance_sol`: idempotent upsert of the
per-account gauge labelled `(name, pubkey)`. -/
def update_metric_balance_sol (name pubkey : String) (value : ℚ)
    (st : MetricsState) : MetricsState :=
  { st with balanceSol := fun k => if k = (name, pubkey) then some value else st.balanceSol k }

/-- Model of `update_metric_total_balance_sol`: idempotent upsert of the
aggregate gauge labelled `name`. -/
def update_metric_total_balance_sol (name : String) (value : ℚ)
    (st : MetricsState) : MetricsState :=
  { st with totalBalanceSol := fun n => if n = name then some value else st.totalBalanceSol n }

/-- Model of `reset_metric_balance_sol`: `GaugeVec::reset()` drops every
labelled child of the per-account gauge vector. -/
def reset_metric_balance_sol (st : MetricsState) : MetricsState :=
  { st with balanceSol := fun _ => none }

/-- Model of `remove_metric_total_balance_sol`:
`remove_label_values(&[name])` drops the single aggregate gauge for
`name`, touching nothing else. -/
def remove_metric_total_balance_sol (name : String) (st : MetricsState) : MetricsState :=
  { st with totalBalanceSol := fun n => if n = name then none else st.totalBalanceSol n }

/-- Interpretation of one emitted event as the metric-store call it
stands for. -/
def applyEvent (st : MetricsState) : MetricEvent → MetricsState
  | MetricEvent.setBalance nm pk v => update_metric_balance_sol nm pk v st
  | MetricEvent.resetAll => reset_metric_balance_sol st
  | MetricEvent.setAggregate nm v => update_metric_total_balance_sol nm v st
  | MetricEvent.removeAggregate nm => remove_metric_total_balance_sol nm st

/-- Interpretation of a cycle's event list, left to right. -/
def applyEvents (st : MetricsState) (evs : List MetricEvent) : MetricsState :=
  evs.foldl applyEvent st

/-- Which sleep the cycle ends with: the 10s backoff of the failure path or
the 300s steady-state check interval. -/
inductive Sleep where
  | backoff
  | checkInterval
deriving DecidableEq, Repr

/-- Lookup of an address's name in the address-to-name list
(`HashMap<Pubkey, String>::get` of `src/balance.rs`, with addresses in
display form). -/
def lookupName : List (String × String) → String → Option String
  | [], _ => none
  | (k, v) :: rest, key => if key = k then some v else lookupName rest key

/-- Per-account processing loop of the fixed-address watcher
(`src/balance.rs`, the `for (pubkey, account) in pubkeys.iter().zip(...)`
loop): for each pair, look the name up in the map (`none` here models the
`.unwrap()` panic on a missing key), emit the does-not-exist diagnostic
for an absent account, and set the gauge to
`lamports_to_sol(account.map(|a| a.lamports).unwrap_or(0))`. Returns the
metric events and the diagnostics, or `none` if the unwrap panicked. -/
def balanceSuccessSteps (named : List (String × String)) :
    List (String × Option Nat) → Option (List MetricEvent × List String)
  | [] => some ([], [])
  | (p, acct) :: rest =>
    match lookupName named p with
    | none => none
    | some nm =>
      match balanceSuccessSteps named rest with
      | none => none
      | some (evs, dgs) =>
        let dg := match acct with
          | none => ["Account " ++ p ++ " does not exist"]
          | some _ => []
        some (MetricEvent.setBalance nm p (lamports_to_sol (acct.getD 0)) :: evs,
          dg ++ dgs)

/-- One cycle of the fixed-address watcher of `src/balance.rs`, as a
function of the RPC response. The request list is
`named.map Prod.fst` — the key set of the address-to-name map, collected
once before the loop — and the response is zipped positionally with it.
A transport error resets every per-account gauge and backs off; success
runs the per-account loop and sleeps the check interval. `none` in the
first component models a panic inside the loop. -/
def balanceCycle (named : List (String × String))
    (resp : Except String (List (Option Nat))) :
    Option (List MetricEvent × List String) × Sleep :=
  match resp with
  | Except.error e =>
    (some ([MetricEvent.resetAll], ["Failed to get RPC response: " ++ e]), Sleep.backoff)
  | Except.ok accounts =>
    (balanceSuccessSteps named ((named.map Prod.fst).zip accounts), Sleep.checkInterval)

/-- The watcher loop over a stream of responses: every response is handled
by one cycle and the loop continues — in particular the `continue` of the
failure arm never leaves the loop. -/
def balanceRun (named : List (String × String)) :
    List (Except String (List (Option Nat))) →
    List (Option (List MetricEvent × List String) × Sleep)
  | [] => []
  | r :: rest => balanceCycle named r :: balanceRun named rest

/-- Wrapping 64-bit sum, the model of the `u64` `Iterator::sum` over the
returned accounts' lamports (release-mode overflow wraps). -/
def sumLamportsU64 (ls : List Nat) : Nat :=
  ls.foldl (fun acc x => (acc + x) % 2 ^ 64) 0

/-- Output of one cycle of the program-accounts watcher: the metric-store
calls, the error diagnostics, the account count recorded by the success
log line, and the sleep the cycle ends with. -/
structure ProgramCycleOutput where
  metricEvents : List MetricEvent
  diagnostics : List String
  loggedCount : Option Nat
  sleep : Sleep
deriving DecidableEq, Repr

/-- One cycle of the program-accounts watcher of
`src/program_accounts_balance.rs` for the target named `name`, as a
function of the RPC response (a list of `(address, lamports)` pairs).
Failure removes the target's aggregate gauge and backs off; success sets
the aggregate gauge to the SOL value of the summed lamports, records the
account count, and sleeps the check interval. -/
def programAccountsCycle (name : String)
    (resp : Except String (List (String × Nat))) : ProgramCycleOutput :=
  match resp with
  | Except.error e =>
    { metricEvents := [MetricEvent.removeAggregate name]
      diagnostics := ["Failed to get RPC response: " ++ e]
      loggedCount := none
      sleep := Sleep.backoff }
  | Except.ok accounts =>
    { metricEvents :=
        [MetricEvent.setAggregate name
          (lamports_to_sol (sumLamportsU64 (accounts.map Prod.snd)))]
      diagnostics := []
      loggedCount := some accounts.length
      sleep := Sleep.checkInterval }

/-- Spec-side description of the fixed-address watcher's success cycle,
written from the spec's words (not from the source), for the refinement
claim C1: for each `(address, name)` pair and its positionally matched
result, in request order, an existing account's gauge is set to the
returned smallest-unit balance divided by `10^9`; a `None` result records
a diagnostic and sets the gauge to zero; `setBalance` is emitted for
every address regardless of the value. -/
def specFixedWatcherOutput :
    List ((String × String) × Option Nat) → List MetricEvent × List String
  | [] => ([], [])
  | ((p, nm), acct) :: rest =>
    let out := specFixedWatcherOutput rest
    match acct with
    | some l =>
      (MetricEvent.setBalance nm p ((l : ℚ) / (10 ^ 9 : ℚ)) :: out.1, out.2)
    | none =>
      (MetricEvent.setBalance nm p 0 :: out.1,
        ("Account " ++ p ++ " does not exist") :: out.2)

/-- Outcome of the named-address configuration loop of `src/bin/cli.rs`:
the built address-to-name map, or a panic. -/
inductive NamedOutcome where
  | ok (m : List (List Nat × String))
  | panic (msg : String)
deriving DecidableEq, Repr

/-- Lookup in the address-to-name map keyed by pubkey bytes
(`HashMap<Pubkey, String>::get`). -/
def assocLookupBytes : List (List Nat × String) → List Nat → Option String
  | [], _ => none
  | (k, v) :: rest, key => if key = k then some v else assocLookupBytes rest key

/-- Model of the named-address loop of `src/bin/cli.rs`: each entry is
split at its first equals sign into name and pubkey string; the pubkey
string is `.expect`-parsed; if the pubkey is already stored the loop
panics UNCONDITIONALLY — the stored name is never compared with the new
one, even though the panic message claims it differs. The pubkey display
inside the messages is rendered from the input token (a valid pubkey
token is canonical base58, so this matches `Pubkey::to_string`); quote
characters of the Rust format string are elided. -/
def buildNamedPubkeys : List String → List (List Nat × String) → NamedOutcome
  | [], acc => NamedOutcome.ok acc
  | entry :: rest, acc =>
    match splitOnceChar entry.toList '=' with
    | none => NamedOutcome.panic ("Failed to parse " ++ entry)
    | some (name, pkStr) =>
      match pubkeyFromStr (String.mk pkStr) with
      | none => NamedOutcome.panic ("Cannot parse pubkey from " ++ String.mk pkStr)
      | some pk =>
        match assocLookupBytes acc pk with
        | some prev =>
          NamedOutcome.panic
            ("Trying to store pubkey " ++ String.mk pkStr ++ " with name "
              ++ String.mk name ++ " but it is stored with a different name "
              ++ prev ++ " already")
        | none => buildNamedPubkeys rest (acc ++ [(pk, String.mk name)])

/-- A concrete metrics store used to witness the frame theorem: every
per-account gauge reads `1`, every aggregate gauge reads `2`. -/
def sampleMetricsState : MetricsState :=
  { balanceSol := fun _ => some 1, totalBalanceSol := fun _ => some 2 }

/-- When the keys of the address-to-name list are distinct, lookup of a
member pair's key returns that pair's name. -/
theorem lookupName_eq_some_of_mem (named : List (String × String)) (p nm : String)
    (hnd : (named.map Prod.fst).Nodup) (hmem : (p, nm) ∈ named) :
    lookupName named p = some nm := by
  induction named with
  | nil => cases hmem
  | cons hd tl ih =>
    obtain ⟨k, v⟩ := hd
    simp only [List.map_cons, List.nodup_cons] at hnd
    rcases List.mem_cons.mp hmem with heq | htl
    · cases heq
      simp [lookupName]
    · have hpk : p ≠ k := by
        intro h
        exact hnd.1 (h ▸ List.mem_map.mpr ⟨(p, nm), htl, rfl⟩)
      simpa [lookupName, hpk] using ih hnd.2 htl

/-- Lookup of any key of the address-to-name list succeeds. -/
theorem lookupName_isSome_of_mem_keys (named : List (String × String)) (p : String)
    (hmem : p ∈ named.map Prod.fst) : (lookupName named p).isSome = true := by
  induction named with
  | nil => cases hmem
  | cons hd tl ih =>
    obtain ⟨k, v⟩ := hd
    by_cases h : p = k
    · simp [lookupName, h]
    · simp only [List.map_cons, List.mem_cons] at hmem
      rcases hmem with h1 | h2
      · exact absurd h1 h
      · simpa [lookupName, h] using ih h2

/-- The per-account loop of the fixed-address watcher computes exactly the
spec-side description whenever every listed pair's key looks up to its own
name in the map the loop consults. -/
theorem balanceSuccessSteps_eq_spec (named0 : List (String × String)) :
    ∀ (named : List (String × String)) (accounts : List (Option Nat)),
    (∀ p nm, (p, nm) ∈ named → lookupName named0 p = some nm) →
    balanceSuccessSteps named0 ((named.map Prod.fst).zip accounts)
      = some (specFixedWatcherOutput (named.zip accounts)) := by
  intro named
  induction named with
  | nil =>
    intro accounts _
    simp [balanceSuccessSteps, specFixedWatcherOutput]
  | cons hd tl ih =>
    intro accounts h
    obtain ⟨p, nm⟩ := hd
    cases accounts with
    | nil => simp [balanceSuccessSteps, specFixedWatcherOutput]
    | cons a as =>
      have hp : lookupName named0 p = some nm := h p nm (List.mem_cons_self _ _)
      have htl := ih as (fun q qn hq => h q qn (List.mem_cons_of_mem _ hq))
      rcases hsp : specFixedWatcherOutput (tl.zip as) with ⟨evs, dgs⟩
      rw [hsp] at htl
      cases a with
      | none =>
        show balanceSuccessSteps named0 ((p, (none : Option Nat)) :: (tl.map Prod.fst).zip as)
          = some (specFixedWatcherOutput (((p, nm), (none : Option Nat)) :: tl.zip as))
        simp only [balanceSuccessSteps, specFixedWatcherOutput, hp, htl, hsp]
        simp [lamports_to_sol]
      | some l =>
        show balanceSuccessSteps named0 ((p, some l) :: (tl.map Prod.fst).zip as)
          = some (specFixedWatcherOutput (((p, nm), some l) :: tl.zip as))
        simp only [balanceSuccessSteps, specFixedWatcherOutput, hp, htl, hsp]
        simp [lamports_to_sol]

/-- The per-account loop never panics when every requested key has a name
in the consulted map. -/
theorem balanceSuccessSteps_isSome (named0 : List (String × String)) :
    ∀ (keys : List String) (accounts : List (Option Nat)),
    (∀ p, p ∈ keys → (lookupName named0 p).isSome = true) →
    (balanceSuccessSteps named0 (keys.zip accounts)).isSome = true := by
  intro keys
  induction keys with
  | nil =>
    intro accounts _
    simp [balanceSuccessSteps]
  | cons p ps ih =>
    intro accounts h
    cases accounts with
    | nil => simp [balanceSuccessSteps]
    | cons a as =>
      obtain ⟨nm, hnm⟩ := Option.isSome_iff_exists.mp (h p (List.mem_cons_self _ _))
      have htl := ih as (fun q hq => h q (List.mem_cons_of_mem _ hq))
      obtain ⟨out, hout⟩ := Option.isSome_iff_exists.mp htl
      obtain ⟨evs, dgs⟩ := out
      show (balanceSuccessSteps named0 ((p, a) :: ps.zip as)).isSome = true
      simp only [balanceSuccessSteps, hnm, hout]
      simp

/-- A wrapping 64-bit left fold agrees with the exact sum as long as no
intermediate total reaches `2^64`. -/
theorem foldl_wrapAdd_eq_sum (ls : List Nat) :
    ∀ acc : Nat, acc + ls.sum < 2 ^ 64 →
    ls.foldl (fun a x => (a + x) % 2 ^ 64) acc = acc + ls.sum := by
  induction ls with
  | nil =>
    intro acc _
    simp
  | cons x xs ih =>
    intro acc h
    simp only [List.foldl_cons, List.sum_cons] at h ⊢
    have hx : acc + x < 2 ^ 64 := by omega
    rw [Nat.mod_eq_of_lt hx, ih (acc + x) (by omega)]
    omega

/-- The watcher's `u64` lamport sum equals the exact sum below `2^64`. -/
theorem sumLamportsU64_eq_sum (ls : List Nat) (h : ls.sum < 2 ^ 64) :
    sumLamportsU64 ls = ls.sum := by
  have := foldl_wrapAdd_eq_sum ls 0 (by simpa using h)
  simpa [sumLamportsU64] using this

/-- Claim C1: on a successful batched get-accounts response the
fixed-address watcher, walking the requested addresses in request order,
sets the gauge labelled `(name, address)` to the returned smallest-unit
balance divided by `10^9`, records a does-not-exist diagnostic and sets
the gauge to zero for a `None` result, emits one `setBalance` per address
unconditionally, and ends the cycle with the long check-interval sleep. -/
theorem c1_fixed_watcher_success_cycle (named : List (String × String))
    (accounts : List (Option Nat)) (hnd : (named.map Prod.fst).Nodup) :
    balanceCycle named (Except.ok accounts)
      = (some (specFixedWatcherOutput (named.zip accounts)), Sleep.checkInterval) := by
  simp only [balanceCycle]
  rw [balanceSuccessSteps_eq_spec named named accounts
    (fun p nm hmem => lookupName_eq_some_of_mem named p nm hnd hmem)]

/-- Witness for C1: the spec's two-address example, lamports
`[some 10^9, none]`. -/
theorem c1_fixed_watcher_success_cycle_witness :
    (([("A1", "n1"), ("A2", "n2")].map Prod.fst).Nodup
  ∧ balanceCycle [("A1", "n1"), ("A2", "n2")] (Except.ok [some 1000000000, none])
      = (some (specFixedWatcherOutput
            ([("A1", "n1"), ("A2", "n2")].zip [some 1000000000, none])),
          Sleep.checkInterval)) :=
  ⟨by decide, c1_fixed_watcher_success_cycle [("A1", "n1"), ("A2", "n2")]
    [some 1000000000, none] (by decide)⟩

/-- Claim C2: on a successful get-program-accounts response the watcher
sets the aggregate gauge of the target's name to the summed smallest-unit
balances divided by `10^9`, records the returned account count, and ends
the cycle with the long check-interval sleep (stated below the `u64`
overflow bound of the lamport sum). -/
theorem c2_program_watcher_success_cycle (name : String)
    (accounts : List (String × Nat))
    (h : (accounts.map Prod.snd).sum < 2 ^ 64) :
    programAccountsCycle name (Except.ok accounts)
      = { metricEvents :=
            [MetricEvent.setAggregate name
              (((accounts.map Prod.snd).sum : ℚ) / (10 ^ 9 : ℚ))]
          diagnostics := []
          loggedCount := some accounts.length
          sleep := Sleep.checkInterval } := by
  simp [programAccountsCycle, sumLamportsU64_eq_sum _ h, lamports_to_sol]

/-- Witness for C2: the spec's three-account example with lamports
`[100, 200, 300]` — aggregate `600 / 10^9` SOL, count `3`. -/
theorem c2_program_watcher_success_cycle_witness :
    ((([("a", 100), ("b", 200), ("c", 300)] : List (String × Nat)).map Prod.snd).sum < 2 ^ 64
  ∧ programAccountsCycle "t"
        (Except.ok ([("a", 100), ("b", 200), ("c", 300)] : List (String × Nat)))
      = { metricEvents :=
            [MetricEvent.setAggregate "t"
              (((([("a", 100), ("b", 200), ("c", 300)] : List (String × Nat)).map Prod.snd).sum : ℚ)
                / (10 ^ 9 : ℚ))]
          diagnostics := []
          loggedCount := some ([("a", 100), ("b", 200), ("c", 300)] : List (String × Nat)).length
          sleep := Sleep.checkInterval }) :=
  ⟨by decide, c2_program_watcher_success_cycle "t"
    ([("a", 100), ("b", 200), ("c", 300)] : List (String × Nat)) (by decide)⟩

/-- Claim C3 (code bug): the named-address loop of `src/bin/cli.rs` panics
on ANY repeated pubkey — it never compares the stored name with the new
one — so two entries mapping the same address to the identical name
`w` abort configuration, while the claim (and the spec, and the panic
message itself, which asserts the stored name is different) say identical
names must not fail. This theorem evaluates the loop at that failing
input. -/
theorem c3_identical_name_duplicate_panics :
    buildNamedPubkeys
      ["w=11111111111111111111111111111111", "w=11111111111111111111111111111111"] []
      = NamedOutcome.panic
          ("Trying to store pubkey 11111111111111111111111111111111 with name w but it is stored with a different name w already") := by
  rfl

/-- Claim C4: a transport-failure cycle of the fixed-address watcher
emits exactly one `resetAll`, zero `setBalance` calls, ends with the short
backoff sleep, and the loop continues with the remaining responses — a
failure never terminates the run. -/
theorem c4_fixed_watcher_failure_cycle (named : List (String × String))
    (e : String) (rest : List (Except String (List (Option Nat)))) :
    balanceCycle named (Except.error e)
      = (some ([MetricEvent.resetAll], ["Failed to get RPC response: " ++ e]), Sleep.backoff)
  ∧ countResetAll [MetricEvent.resetAll] = 1
  ∧ countSetBalance [MetricEvent.resetAll] = 0
  ∧ balanceRun named (Except.error e :: rest)
      = balanceCycle named (Except.error e) :: balanceRun named rest :=
  ⟨rfl, rfl, rfl, rfl⟩

/-- Claim C5: the failure handling of a program-accounts target removes
only that target's aggregate gauge; every other aggregate gauge and every
per-account gauge of the store is unchanged. -/
theorem c5_program_watcher_failure_frame (st : MetricsState)
    (name e other : String) (key : String × String) (h : other ≠ name) :
    (applyEvents st (programAccountsCycle name (Except.error e)).metricEvents).totalBalanceSol other
        = st.totalBalanceSol other
  ∧ (applyEvents st (programAccountsCycle name (Except.error e)).metricEvents).balanceSol key
        = st.balanceSol key
  ∧ (applyEvents st (programAccountsCycle name (Except.error e)).metricEvents).totalBalanceSol name
        = none := by
  refine ⟨?_, rfl, ?_⟩ <;>
    simp [applyEvents, applyEvent, programAccountsCycle,
      remove_metric_total_balance_sol, h]

/-- Witness for C5: a fully populated store, failing target `a`,
spectator aggregate `b` and spectator per-account gauge `(n, p)`. -/
theorem c5_program_watcher_failure_frame_witness :
    (("b" : String) ≠ "a"
  ∧ ((applyEvents sampleMetricsState
        (programAccountsCycle "a" (Except.error "e")).metricEvents).totalBalanceSol "b"
        = sampleMetricsState.totalBalanceSol "b"
  ∧ (applyEvents sampleMetricsState
        (programAccountsCycle "a" (Except.error "e")).metricEvents).balanceSol ("n", "p")
        = sampleMetricsState.balanceSol ("n", "p")
  ∧ (applyEvents sampleMetricsState
        (programAccountsCycle "a" (Except.error "e")).metricEvents).totalBalanceSol "a"
        = none)) :=
  ⟨by decide, c5_program_watcher_failure_frame sampleMetricsState "a" "e" "b" ("n", "p")
    (by decide)⟩

/-- Claim C6 counterexample: parsing `x=0` — whose params token `0` is not
a valid account identifier — does NOT return an error value: `from_str`
`.expect`-panics instead. -/
theorem c6_invalid_program_id_counterexample :
    (ProgramAccountsBalanceConfig.fromStr "x=0").isErr = false
  ∧ ProgramAccountsBalanceConfig.fromStr "x=0"
      = CfgOutcome.panic "Failed to parse program ID from 0" :=
  ⟨rfl, rfl⟩

/-- Claim C6 (amended): for every `name=params` string whose first
whitespace-delimited params token does not parse as a valid account
identifier, `from_str` panics with a failed-to-parse-program-ID
diagnostic (a crash raised by `.expect`), rather than returning an
`InvalidProgramId` error value; there are no side effects either way. -/
theorem c6_invalid_program_id_panics (s : String) (name params prog : List Char)
    (rest : List (List Char))
    (h1 : splitOnceChar s.toList '=' = some (name, params))
    (h2 : splitChar params ' ' = prog :: rest)
    (h3 : pubkeyFromStr (String.mk prog) = none) :
    ProgramAccountsBalanceConfig.fromStr s
      = CfgOutcome.panic ("Failed to parse program ID from " ++ String.mk prog) := by
  have h1x : splitOnceChar s.data '=' = some (name, params) := h1
  simp [ProgramAccountsBalanceConfig.fromStr, h1x, h2, h3]

/-- Witness for the amended C6 at the concrete input `x=0`. -/
theorem c6_invalid_program_id_panics_witness :
    (splitOnceChar "x=0".toList '=' = some (['x'], ['0'])
  ∧ splitChar ['0'] ' ' = [['0']]
  ∧ pubkeyFromStr (String.mk ['0']) = none
  ∧ ProgramAccountsBalanceConfig.fromStr "x=0"
      = CfgOutcome.panic ("Failed to parse program ID from " ++ String.mk ['0'])) :=
  ⟨by decide, by decide, by decide,
    c6_invalid_program_id_panics "x=0" ['x'] ['0'] ['0'] []
      (by decide) (by decide) (by decide)⟩

/-- Claim C7 counterexample: parsing `x=` does not produce the
missing-program-id error value the claim names: it panics trying to parse
the empty string as a program id. -/
theorem c7_empty_params_counterexample :
    (ProgramAccountsBalanceConfig.fromStr "x=").isErr = false
  ∧ ProgramAccountsBalanceConfig.fromStr "x="
      = CfgOutcome.panic "Failed to parse program ID from " :=
  ⟨rfl, rfl⟩

/-- Claim C7 (amended): for every `name=` string with empty params,
`from_str` panics attempting to parse the empty string as a program id;
the `MissingProgramId` branch is unreachable, because splitting any
params string on spaces yields at least one (possibly empty) token. -/
theorem c7_empty_params_panics :
    (∀ (s : String) (name : List Char),
      splitOnceChar s.toList '=' = some (name, []) →
      ProgramAccountsBalanceConfig.fromStr s
        = CfgOutcome.panic "Failed to parse program ID from ")
  ∧ (∀ l : List Char, splitChar l ' ' ≠ []) := by
  constructor
  · intro s name h
    have hx : splitOnceChar s.data '=' = some (name, []) := h
    simp [ProgramAccountsBalanceConfig.fromStr, hx]
    rfl
  · intro l
    induction l with
    | nil => simp [splitChar]
    | cons c cs ih =>
      simp only [splitChar]
      by_cases hc : c = ' '
      · simp [hc]
      · simp only [if_neg hc]
        cases hsp : splitChar cs ' ' with
        | nil => simp
        | cons hfrag tfrags => simp

/-- Witness for the amended C7 at the concrete input `x=`. -/
theorem c7_empty_params_panics_witness :
    (splitOnceChar "x=".toList '=' = some (['x'], [])
  ∧ ProgramAccountsBalanceConfig.fromStr "x="
      = CfgOutcome.panic "Failed to parse program ID from ") :=
  ⟨by decide, c7_empty_params_panics.1 "x=" ['x'] (by decide)⟩

/-- Claim C8 counterexample: the payload `!!` is not valid base58, yet
`b58`-filter parsing succeeds, storing the payload verbatim — it does not
fail with a parse error as the claim requires. -/
theorem c8_invalid_base58_counterexample :
    bs58Decode "!!" = none
  ∧ parse_memcmp_base58_filter_type "5:!!"
      = Except.ok (RpcFilterType.memcmp 5 "!!") :=
  ⟨rfl, rfl⟩

/-- Claim C8 (amended): for every token `b58:<offset>:<bytes>` whose
offset parses as an unsigned integer, the parsed predicate holds that
offset and the `<bytes>` payload stored VERBATIM, still base58-encoded —
no decoding or validation of the payload happens at parse time, so the
round-trip on the stored payload is the identity and an invalid-base58
payload does not fail; a non-integer offset fails with a parse error. -/
theorem c8_base58_payload_stored_verbatim (param : String)
    (offset bytes : List Char)
    (h : splitOnceChar param.toList ':' = some (offset, bytes)) :
    (∀ n : Nat, parseU64 (String.mk offset) = some n →
      parse_memcmp_base58_filter_type param
        = Except.ok (RpcFilterType.memcmp n (String.mk bytes)))
  ∧ (parseU64 (String.mk offset) = none →
      parse_memcmp_base58_filter_type param
        = Except.error ("invalid offset " ++ String.mk offset)) := by
  have hx : splitOnceChar param.data ':' = some (offset, bytes) := h
  constructor
  · intro n hn
    simp [parse_memcmp_base58_filter_type, hx, hn]
  · intro hn
    simp [parse_memcmp_base58_filter_type, hx, hn]

/-- Witness for the amended C8 at the concrete token payload `5:AB`. -/
theorem c8_base58_payload_stored_verbatim_witness :
    (splitOnceChar "5:AB".toList ':' = some (['5'], ['A', 'B'])
  ∧ parseU64 (String.mk ['5']) = some 5
  ∧ parse_memcmp_base58_filter_type "5:AB"
      = Except.ok (RpcFilterType.memcmp 5 (String.mk ['A', 'B']))) :=
  ⟨by decide, by decide,
    (c8_base58_payload_stored_verbatim "5:AB" ['5'] ['A', 'B'] (by decide)).1 5 (by decide)⟩

/-- Claim C9: a token with a colon whose kind prefix is neither `b58` nor
`size` fails with the unsupported-kind error; a token without a colon
fails with the malformed-parameter error; the parser is a pure function
of its input string (it is a Lean function of `param` alone). -/
theorem c9_filter_parser_error_taxonomy (param : String) :
    (∀ (key value : List Char),
      splitOnceChar param.toList ':' = some (key, value) →
      String.mk key ≠ "b58" → String.mk key ≠ "size" →
      parse_rpc_filter_type param
        = Except.error ("Unsupported parameter type " ++ String.mk key))
  ∧ (splitOnceChar param.toList ':' = none →
      parse_rpc_filter_type param
        = Except.error ("Malformed parameter " ++ param)) := by
  constructor
  · intro key value h h1 h2
    have hx : splitOnceChar param.data ':' = some (key, value) := h
    simp [parse_rpc_filter_type, hx, h1, h2]
  · intro h
    have hx : splitOnceChar param.data ':' = none := h
    simp [parse_rpc_filter_type, hx]

/-- Witness for C9 at the concrete tokens `xyz:1` and `nosep`. -/
theorem c9_filter_parser_error_taxonomy_witness :
    (splitOnceChar "xyz:1".toList ':' = some (['x', 'y', 'z'], ['1'])
  ∧ parse_rpc_filter_type "xyz:1"
      = Except.error ("Unsupported parameter type " ++ String.mk ['x', 'y', 'z'])
  ∧ splitOnceChar "nosep".toList ':' = none
  ∧ parse_rpc_filter_type "nosep"
      = Except.error ("Malformed parameter " ++ "nosep")) :=
  ⟨by decide,
    (c9_filter_parser_error_taxonomy "xyz:1").1 ['x', 'y', 'z'] ['1']
      (by decide) (by decide) (by decide),
    by decide,
    (c9_filter_parser_error_taxonomy "nosep").2 (by decide)⟩

/-- Claim C10: the name lookup of the fixed-address watcher's success loop
never fails — the request list is the key list of the address-to-name map
collected once before the loop, the response is zipped positionally with
it, and every key of the map has a name — so the modelled `unwrap` panic
(`none`) is unreachable on every successful cycle. -/
theorem c10_name_lookup_never_fails (named : List (String × String))
    (accounts : List (Option Nat)) :
    ((balanceCycle named (Except.ok accounts)).1).isSome = true := by
  simp only [balanceCycle]
  exact balanceSuccessSteps_isSome named (named.map Prod.fst) accounts
    (fun p hp => lookupName_isSome_of_mem_keys named p hp)

end SolanaBalanceWatcher
